import Mathlib

/-!
# ForestFloor audio engine and desktop runtime: a shallow embedding

This file embeds the real-time audio core of the ForestFloor drum machine in
Lean 4 and proves properties of it.

Sources embedded:
* `packages/engine-cpp/src/engine.cpp` — the DSP voice engine (`ff::engine::Engine`);
* `packages/dsp-cpp/src/gain.cpp` — the master `GainProcessor`;
* `apps/desktop/src/runtime.cpp` — the desktop `Runtime`: step grid,
  command queue, sequencer state machine.

Modelling conventions:
* C++ `float`/`double` values are modelled as exact rationals (`ℚ`).  All the
  arithmetic the embedded code performs on them (clamping, comparison,
  addition, multiplication, division by constants) is exact field arithmetic,
  so the rational model follows the source statement by statement; decimal
  literals such as `0.0001F` are taken at their decimal value.
* The two transcendental library calls (`std::pow(2, x)` in `pitchRatio` and
  `std::exp` in `envelopeCoefficient`) have no exact rational meaning; they
  are abstracted into a `Transcendental` bundle of rational functions that is
  passed as a parameter.  Every theorem below holds for an arbitrary bundle.
* `std::lround` on the non-negative values the code feeds it agrees with
  Mathlib's `round` (both round halves up for non-negative arguments).
* Machine integers (`std::size_t`, `std::uint8_t`, `std::uint32_t`,
  `std::uint64_t`) are modelled as `ℕ`, with range hypotheses where a claim's
  meaning depends on them; `int` choke groups are `ℤ`.
* Wall-clock profiling timestamps cannot be computed; the elapsed time of a
  `process` call is an explicit parameter `elapsed_us` supplied by the
  environment, exactly as `recordProcessTiming` receives it.
* The caller-owned output buffer of `Engine::process` is modelled by a
  `buffer_null : Bool` flag plus an `Option (List ℚ)` result: `none` means
  the call returned without writing anything.
-/

namespace ForestFloor

/-- The two transcendental float routines used by the engine
(`std::pow(2.0F, x)` and `std::exp(x)`), abstracted as arbitrary rational
functions: no claim below depends on their values. -/
structure Transcendental where
  pow2 : ℚ → ℚ
  expQ : ℚ → ℚ
deriving Inhabited

/-- `std::clamp(value, lo, hi)`. -/
def clampQ (value lo hi : ℚ) : ℚ := min (max value lo) hi

/-- `clampNormalized` (engine.cpp, anonymous namespace): clamp to `[0,1]`. -/
def clampNormalized (value : ℚ) : ℚ := clampQ value 0 1

/-- `normalizedToChokeGroup` (engine.cpp, anonymous namespace): values at or
below `0.0001` map to `-1` (no group); otherwise
`std::clamp(lround(clamped*16)-1, 0, 15)`. -/
def normalizedToChokeGroup (normalized : ℚ) : ℤ :=
  let clamped := clampNormalized normalized
  if clamped ≤ 1/10000 then -1
  else min (max (round (clamped * 16) - 1) 0) 15

/-- `ff::engine::TrackParameters` (engine.hpp). -/
structure TrackParameters where
  gain : ℚ := 1
  pan : ℚ := 0
  filter_cutoff : ℚ := 1
  envelope_decay : ℚ := 1
  pitch_semitones : ℚ := 0
  choke_group : ℤ := -1
deriving DecidableEq, Inhabited

/-- `Engine::TrackVoice` (engine.hpp, private). -/
structure TrackVoice where
  sample : List ℚ := []
  playhead : ℚ := 0
  trigger_velocity : ℚ := 0
  envelope_value : ℚ := 0
  filter_state : ℚ := 0
  active : Bool := false
  parameters : TrackParameters := {}
deriving DecidableEq, Inhabited

/-- `ff::engine::AudioDeviceConfig` (engine.hpp). -/
structure AudioDeviceConfig where
  device_id : String := "default"
  sample_rate_hz : ℕ := 48000
  buffer_size_frames : ℕ := 256
deriving DecidableEq, Inhabited

/-- `ff::engine::TransportState` (engine.hpp). -/
structure TransportState where
  bpm : ℚ := 120
  is_playing : Bool := false
deriving DecidableEq, Inhabited

/-- `ff::engine::PerformanceStats` accumulated by `recordProcessTiming`. -/
structure PerformanceStats where
  processed_blocks : ℕ := 0
  processed_frames : ℕ := 0
  peak_block_duration_us : ℚ := 0
  average_block_duration_us : ℚ := 0
  peak_callback_utilization : ℚ := 0
  average_callback_utilization : ℚ := 0
  xrun_count : ℕ := 0
deriving DecidableEq, Inhabited

/-- `Engine::kTrackCount`. -/
def kTrackCount : ℕ := 8

/-- `ff::engine::Engine` state (engine.hpp private members, default values
from the member initializers). -/
structure Engine where
  master_gain : ℚ := 1
  tracks : Fin 8 → TrackVoice := fun _ => {}
  pad_base_note : ℕ := 36
  transport : TransportState := {}
  audio_device_config : AudioDeviceConfig := {}
  profiling_enabled : Bool := false
  performance_stats : PerformanceStats := {}
deriving DecidableEq, Inhabited

namespace Engine

/-- `Engine::clampVelocity`. -/
def clampVelocity (velocity : ℚ) : ℚ := clampQ velocity 0 1

/-- `Engine::clampGain`. -/
def clampGain (gain : ℚ) : ℚ := clampQ gain 0 2

/-- `Engine::clampPan`. -/
def clampPan (pan : ℚ) : ℚ := clampQ pan (-1) 1

/-- `Engine::clampFilterCutoff`. -/
def clampFilterCutoff (cutoff : ℚ) : ℚ := clampQ cutoff 0 1

/-- `Engine::clampEnvelopeDecay`. -/
def clampEnvelopeDecay (decay : ℚ) : ℚ := clampQ decay 0 1

/-- `Engine::clampPitchSemitones`. -/
def clampPitchSemitones (semitones : ℚ) : ℚ := clampQ semitones (-24) 24

/-- `Engine::clampChokeGroup`. -/
def clampChokeGroup (choke_group : ℤ) : ℤ :=
  if choke_group < 0 then -1 else min choke_group 15

/-- `Engine::setMasterGain` / `GainProcessor::setGain`. -/
def setMasterGain (e : Engine) (gain : ℚ) : Engine := { e with master_gain := gain }

/-- `Engine::setTrackSample`: replaces the sample buffer and fully resets the
voice.  Result is `(returned bool, new engine)`. -/
def setTrackSample (e : Engine) (track_index : ℕ) (sample : List ℚ) : Bool × Engine :=
  if h : kTrackCount ≤ track_index then (false, e)
  else if sample = [] then (false, e)
  else
    let idx : Fin 8 := ⟨track_index, by simp [kTrackCount] at h; omega⟩
    let t := e.tracks idx
    let t' : TrackVoice :=
      { t with sample := sample, playhead := 0, active := false,
               trigger_velocity := 0, envelope_value := 0, filter_state := 0 }
    (true, { e with tracks := Function.update e.tracks idx t' })

/-- `Engine::triggerTrack`: fails for an out-of-range index or empty sample;
otherwise deactivates the other active voices sharing a non-negative choke
group, then resets the voice, whose `active` flag (and the returned bool) is
`trigger_velocity > 0` after clamping. -/
def triggerTrack (e : Engine) (track_index : ℕ) (velocity : ℚ) : Bool × Engine :=
  if h : kTrackCount ≤ track_index then (false, e)
  else
    let idx : Fin 8 := ⟨track_index, by simp [kTrackCount] at h; omega⟩
    let t := e.tracks idx
    if t.sample = [] then (false, e)
    else
      let choked : Fin 8 → TrackVoice :=
        if 0 ≤ t.parameters.choke_group then
          fun j =>
            if j ≠ idx ∧ (e.tracks j).active = true ∧
                (e.tracks j).parameters.choke_group = t.parameters.choke_group then
              { e.tracks j with active := false }
            else e.tracks j
        else e.tracks
      let tv := clampVelocity velocity
      let t' : TrackVoice :=
        { t with playhead := 0, trigger_velocity := tv, envelope_value := 1,
                 filter_state := 0, active := decide (0 < tv) }
      (decide (0 < tv), { e with tracks := Function.update choked idx t' })

/-- `Engine::setTrackParameters`: clamps every field then stores. -/
def setTrackParameters (e : Engine) (track_index : ℕ) (p : TrackParameters) :
    Bool × Engine :=
  if h : kTrackCount ≤ track_index then (false, e)
  else
    let idx : Fin 8 := ⟨track_index, by simp [kTrackCount] at h; omega⟩
    let clamped : TrackParameters :=
      { gain := clampGain p.gain
        pan := clampPan p.pan
        filter_cutoff := clampFilterCutoff p.filter_cutoff
        envelope_decay := clampEnvelopeDecay p.envelope_decay
        pitch_semitones := clampPitchSemitones p.pitch_semitones
        choke_group := clampChokeGroup p.choke_group }
    let t' : TrackVoice := { e.tracks idx with parameters := clamped }
    (true, { e with tracks := Function.update e.tracks idx t' })

end Engine

/-- Modelled from the spec: the ABI parameter-id constants
`FF_PARAM_TRACK_BASE`, `FF_PARAM_TRACK_STRIDE` and the per-track slot indices
`FF_PARAM_SLOT_GAIN/PAN/FILTER_CUTOFF/ENVELOPE_DECAY/PITCH/CHOKE_GROUP` are
used by `engine.cpp` and `runtime.cpp` but their defining header is not under
`src/` (`ff/abi/contracts.h` there omits them).  The spec fixes only that a
flat id decodes by fixed stride arithmetic into `(track_index, slot)` with
those six slots; concrete representative values are chosen here. -/
def FF_PARAM_TRACK_BASE : ℕ := 4096

/-- Modelled from the spec: per-track id stride (see `FF_PARAM_TRACK_BASE`). -/
def FF_PARAM_TRACK_STRIDE : ℕ := 8

/-- Modelled from the spec: slot index of a track's gain parameter. -/
def FF_PARAM_SLOT_GAIN : ℕ := 0

/-- Modelled from the spec: slot index of a track's pan parameter. -/
def FF_PARAM_SLOT_PAN : ℕ := 1

/-- Modelled from the spec: slot index of a track's filter-cutoff parameter. -/
def FF_PARAM_SLOT_FILTER_CUTOFF : ℕ := 2

/-- Modelled from the spec: slot index of a track's envelope-decay parameter. -/
def FF_PARAM_SLOT_ENVELOPE_DECAY : ℕ := 3

/-- Modelled from the spec: slot index of a track's pitch parameter. -/
def FF_PARAM_SLOT_PITCH : ℕ := 4

/-- Modelled from the spec: slot index of a track's choke-group parameter. -/
def FF_PARAM_SLOT_CHOKE_GROUP : ℕ := 5

namespace Engine

/-- `Engine::applyParameterUpdate`: decodes `(track, slot)` from the flat id,
maps the clamped normalized value into the slot's native range and stores via
`setTrackParameters`; unknown ids fail without side effects. -/
def applyParameterUpdate (e : Engine) (parameter_id : ℕ) (normalized_value : ℚ) :
    Bool × Engine :=
  if parameter_id < FF_PARAM_TRACK_BASE then (false, e)
  else
    let track_offset := parameter_id - FF_PARAM_TRACK_BASE
    let track_index := track_offset / FF_PARAM_TRACK_STRIDE
    let slot := track_offset % FF_PARAM_TRACK_STRIDE
    if h : kTrackCount ≤ track_index then (false, e)
    else
      let p := (e.tracks ⟨track_index, by simp [kTrackCount] at h; omega⟩).parameters
      let clamped := clampNormalized normalized_value
      if slot = FF_PARAM_SLOT_GAIN then
        e.setTrackParameters track_index { p with gain := clamped * 2 }
      else if slot = FF_PARAM_SLOT_PAN then
        e.setTrackParameters track_index { p with pan := clamped * 2 - 1 }
      else if slot = FF_PARAM_SLOT_FILTER_CUTOFF then
        e.setTrackParameters track_index { p with filter_cutoff := clamped }
      else if slot = FF_PARAM_SLOT_ENVELOPE_DECAY then
        e.setTrackParameters track_index { p with envelope_decay := clamped }
      else if slot = FF_PARAM_SLOT_PITCH then
        e.setTrackParameters track_index { p with pitch_semitones := clamped * 48 - 24 }
      else if slot = FF_PARAM_SLOT_CHOKE_GROUP then
        e.setTrackParameters track_index
          { p with choke_group := normalizedToChokeGroup clamped }
      else (false, e)

/-- `Engine::handleMidiNoteOn`: rejects zero velocity and notes below the pad
base note, otherwise forwards to `triggerTrack (note - base) (velocity/127)`. -/
def handleMidiNoteOn (e : Engine) (note velocity : ℕ) : Bool × Engine :=
  if velocity = 0 then (false, e)
  else if note < e.pad_base_note then (false, e)
  else
    let track_index := note - e.pad_base_note
    if kTrackCount ≤ track_index then (false, e)
    else e.triggerTrack track_index ((velocity : ℚ) / 127)

/-- `Engine::sampleAt`: linear interpolation at the fractional playhead,
clamped to the last sample index (no wraparound).  The C++
`static_cast<std::size_t>` of the clamped non-negative playhead truncates,
i.e. takes the floor. -/
def sampleAt (t : TrackVoice) : ℚ :=
  if t.sample = [] then 0
  else
    let n := t.sample.length
    let clamped_playhead := clampQ t.playhead 0 ((n : ℚ) - 1)
    let lower_index := clamped_playhead.floor.toNat
    let upper_index := min (lower_index + 1) (n - 1)
    let fraction := clamped_playhead - (lower_index : ℚ)
    let lower_sample := t.sample.getD lower_index 0
    let upper_sample := t.sample.getD upper_index 0
    lower_sample + (upper_sample - lower_sample) * fraction

/-- `Engine::pitchRatio`: `std::pow(2, semitones/12)`, via the abstract
transcendental bundle. -/
def pitchRatio (F : Transcendental) (semitones : ℚ) : ℚ := F.pow2 (semitones / 12)

/-- `Engine::filterAlpha`: `0.01 + cutoff * 0.99`. -/
def filterAlpha (cutoff : ℚ) : ℚ := 1/100 + cutoff * (99/100)

/-- `Engine::envelopeCoefficient`: `exp(-1 / (decaySeconds * sampleRate))`
with `decaySeconds = 0.02 + decay * 3` and the sample rate floored at 1. -/
def envelopeCoefficient (F : Transcendental) (sample_rate_hz : ℕ) (decay : ℚ) : ℚ :=
  let sample_rate : ℚ := (max sample_rate_hz 1 : ℕ)
  let decay_seconds := 1/50 + decay * 3
  F.expQ (-1 / (decay_seconds * sample_rate))

/-- `Engine::panGain`: `1 - |pan| * 0.5`. -/
def panGain (pan : ℚ) : ℚ := 1 - |pan| * (1/2)

/-- One iteration of the per-track loop inside `Engine::process` (engine.cpp
lines 39–63): returns the updated voice and the amount it adds to the frame's
`mixed_sample`.  An inactive voice is untouched and contributes `0`; an active
voice with an empty sample is deactivated and contributes `0`. -/
def stepVoice (F : Transcendental) (sample_rate_hz : ℕ) (t : TrackVoice) :
    TrackVoice × ℚ :=
  if t.active = false then (t, 0)
  else if t.sample = [] then ({ t with active := false }, 0)
  else
    let input := sampleAt t
    let playhead' := t.playhead + pitchRatio F t.parameters.pitch_semitones
    let active1 : Bool := if (t.sample.length : ℚ) ≤ playhead' then false else t.active
    let filter_state' :=
      t.filter_state + filterAlpha t.parameters.filter_cutoff * (input - t.filter_state)
    let amplitude := t.parameters.gain * t.trigger_velocity * t.envelope_value *
      panGain t.parameters.pan
    let contribution := filter_state' * amplitude
    let envelope' := t.envelope_value *
      envelopeCoefficient F sample_rate_hz t.parameters.envelope_decay
    let active2 : Bool := if envelope' < 1/10000 then false else active1
    ({ t with playhead := playhead', filter_state := filter_state',
              envelope_value := envelope', active := active2 }, contribution)

/-- One frame of `Engine::process`: runs `stepVoice` over tracks 0..7 in
order (each loop iteration reads and writes only track `i`), accumulating the
mixed sample starting from `0`. -/
def processFrame (F : Transcendental) (sample_rate_hz : ℕ)
    (tracks : Fin 8 → TrackVoice) : (Fin 8 → TrackVoice) × ℚ :=
  (List.finRange 8).foldl
    (fun acc i =>
      let r := stepVoice F sample_rate_hz (acc.1 i)
      (Function.update acc.1 i r.1, acc.2 + r.2))
    (tracks, 0)

/-- The frame loop of `Engine::process`: `frames` successive frames, the mono
mix of each collected in order. -/
def processFrames (F : Transcendental) (sample_rate_hz : ℕ)
    (tracks : Fin 8 → TrackVoice) : ℕ → (Fin 8 → TrackVoice) × List ℚ
  | 0 => (tracks, [])
  | n + 1 =>
    let head := processFrame F sample_rate_hz tracks
    let rest := processFrames F sample_rate_hz head.1 n
    (rest.1, head.2 :: rest.2)

/-- `Engine::blockBudgetMicros`: `frames * 1e6 / sampleRate`, `0` when the
sample rate is `0`. -/
def blockBudgetMicros (sample_rate_hz : ℕ) (frames : ℕ) : ℚ :=
  if sample_rate_hz = 0 then 0
  else (frames : ℚ) * 1000000 / (sample_rate_hz : ℚ)

/-- `Engine::recordProcessTiming`: running peaks and means of per-block
duration and callback-budget utilization, incrementing the x-run counter when
utilization exceeds `1`. -/
def recordProcessTiming (sample_rate_hz : ℕ) (stats : PerformanceStats)
    (frames : ℕ) (elapsed_us : ℚ) : PerformanceStats :=
  let s1 : PerformanceStats :=
    { stats with
        processed_blocks := stats.processed_blocks + 1
        processed_frames := stats.processed_frames + frames
        peak_block_duration_us := max stats.peak_block_duration_us elapsed_us }
  let block_budget_us := blockBudgetMicros sample_rate_hz frames
  let utilization := if 0 < block_budget_us then elapsed_us / block_budget_us else 0
  let s2 : PerformanceStats :=
    { s1 with
        peak_callback_utilization := max s1.peak_callback_utilization utilization
        xrun_count := if 1 < utilization then s1.xrun_count + 1 else s1.xrun_count }
  let sample_count : ℚ := (s2.processed_blocks : ℚ)
  if sample_count ≤ 0 then s2
  else
    { s2 with
        average_block_duration_us := s2.average_block_duration_us +
          (elapsed_us - s2.average_block_duration_us) / sample_count
        average_callback_utilization := s2.average_callback_utilization +
          (utilization - s2.average_callback_utilization) / sample_count }

/-- `Engine::process` followed by `GainProcessor::process`: a null buffer or
zero frame count returns immediately (`none` output, engine untouched);
otherwise the voices are mixed per frame, the master gain scales every output
sample, and — when profiling is enabled — the externally observed
`elapsed_us` is folded into the performance stats. -/
def process (F : Transcendental) (e : Engine) (buffer_null : Bool) (frames : ℕ)
    (elapsed_us : ℚ) : Engine × Option (List ℚ) :=
  if buffer_null = true ∨ frames = 0 then (e, none)
  else
    let sr := e.audio_device_config.sample_rate_hz
    let mixed := processFrames F sr e.tracks frames
    let output := mixed.2.map (fun sample => sample * e.master_gain)
    let stats :=
      if e.profiling_enabled then
        recordProcessTiming sr e.performance_stats frames elapsed_us
      else e.performance_stats
    ({ e with tracks := mixed.1, performance_stats := stats }, some output)

/-- `Engine::startTransport`. -/
def startTransport (e : Engine) : Engine :=
  { e with transport := { e.transport with is_playing := true } }

/-- `Engine::stopTransport`. -/
def stopTransport (e : Engine) : Engine :=
  { e with transport := { e.transport with is_playing := false } }

/-- `Engine::setTempoBpm`: clamps to `[20,300]`. -/
def setTempoBpm (e : Engine) (bpm : ℚ) : Engine :=
  { e with transport := { e.transport with bpm := clampQ bpm 20 300 } }

end Engine

namespace Runtime

/-- `Runtime::kSteps`. -/
def kSteps : ℕ := 16

/-- `DBL_EPSILON` (`std::numeric_limits<double>::epsilon()`), the exact
rational `2⁻⁵²`. -/
def dblEps : ℚ := 1 / 2 ^ 52

/-- `clampVelocityToUnit` (runtime.cpp, anonymous namespace):
`std::clamp(velocity / 127, 0, 1)`. -/
def clampVelocityToUnit (velocity : ℕ) : ℚ := clampQ ((velocity : ℚ) / 127) 0 1

/-- `ProjectStep` (project_io.hpp): default-constructed cells are inactive
with velocity `100`. -/
structure ProjectStep where
  active : Bool := false
  velocity : ℕ := 100
deriving DecidableEq, Inhabited

/-- The `Runtime::steps_` table: an 8×16 grid of per-cell atomic bytes
(`0` = inactive, `1..127` = active with that velocity). -/
def Grid : Type := Fin 8 → Fin 16 → ℕ

instance : DecidableEq Grid := by unfold Grid; infer_instance

/-- The all-zero grid the `Runtime` constructor starts from. -/
def emptyGrid : Grid := fun _ _ => 0

instance : Inhabited Grid := ⟨emptyGrid⟩

/-- `Runtime::setStep`: rejects out-of-range indices; otherwise stores
`clamp(velocity, 1, 127)` for an active cell and `0` for an inactive one.
(The persistence-model mirror `project_model_.pattern`, guarded by its own
mutex and never read in the audio callback, is not modelled; no claim
references it.) -/
def setStep (g : Grid) (track_index step_index : ℕ) (active : Bool)
    (velocity : ℕ) : Bool × Grid :=
  if h : kTrackCount ≤ track_index ∨ kSteps ≤ step_index then (false, g)
  else
    have ht : track_index < 8 := by simp [kTrackCount, kSteps] at h; omega
    have hs : step_index < 16 := by simp [kTrackCount, kSteps] at h; omega
    let stored := if active then min (max velocity 1) 127 else 0
    (true, Function.update g ⟨track_index, ht⟩
      (Function.update (g ⟨track_index, ht⟩) ⟨step_index, hs⟩ stored))

/-- `Runtime::step`: reads one cell; out-of-range indices yield the
default-constructed `ProjectStep`. -/
def stepCell (g : Grid) (track_index step_index : ℕ) : ProjectStep :=
  if h : kTrackCount ≤ track_index ∨ kSteps ≤ step_index then {}
  else
    have ht : track_index < 8 := by simp [kTrackCount, kSteps] at h; omega
    have hs : step_index < 16 := by simp [kTrackCount, kSteps] at h; omega
    let stored := g ⟨track_index, ht⟩ ⟨step_index, hs⟩
    { active := decide (0 < stored), velocity := if 0 < stored then stored else 100 }

/-- `Runtime::stepIntervalSamples`: `base = sampleRate*60/bpm/4` with tempo
clamped to `[20,300]` and the sample rate floored at 1; swing (clamped to
`[0,0.45]`) lengthens even-indexed steps by `1+swing` and shortens odd ones by
`1-swing`, and is ignored when at most `DBL_EPSILON`. -/
def stepIntervalSamples (tempo_bpm swing : ℚ) (sample_rate_hz : ℕ)
    (step_index : ℕ) : ℚ :=
  let bpm := clampQ tempo_bpm 20 300
  let sample_rate : ℚ := ((max 1 sample_rate_hz : ℕ) : ℚ)
  let base := sample_rate * 60 / bpm / 4
  let swing_amount := clampQ swing 0 (45/100)
  if swing_amount ≤ dblEps then base
  else if step_index % 2 = 0 then base * (1 + swing_amount)
  else base * (1 - swing_amount)

/-- `Runtime::TriggerEvent`. -/
structure TriggerEvent where
  offset : ℕ := 0
  track_index : ℕ := 0
  velocity : ℚ := 0
deriving DecidableEq, Inhabited

/-- `Runtime::collectStepEvents`: pushes, in track order, one event per track
whose cell at `step_index` holds a positive byte. -/
def collectStepEvents (g : Grid) (step_index block_offset : ℕ) :
    List TriggerEvent :=
  if h : kSteps ≤ step_index then []
  else
    have hs : step_index < 16 := by simp [kSteps] at h; omega
    (List.finRange 8).filterMap fun track =>
      let velocity := g track ⟨step_index, hs⟩
      if 0 < velocity then
        some { offset := block_offset, track_index := track,
               velocity := clampVelocityToUnit velocity }
      else none

/-- `Runtime::SequencerState`. -/
structure SequencerState where
  current_step : ℕ := 0
  samples_to_next_step : ℚ := 0
  timeline_sample : ℕ := 0
  emit_step_on_next_process : Bool := false
  callbacks_since_start : ℕ := 0
deriving DecidableEq, Inhabited

/-- The `while (remaining > 0)` loop of `Runtime::processSequencer`,
fuel-bounded: `interval` is `stepIntervalSamples` at the current atomics, and
each iteration either consumes a whole step interval (advancing
`current_step` mod 16 and emitting the new step's cells at the rounded,
frame-clamped consumed offset) or absorbs the rest of the block into
`samples_to_next_step`.  Intervals are bounded below by
`60/300/4 · (1-0.45) > 1/40` samples, so `40·frames + 2` fuel always outlasts
the loop. -/
def seqLoop (interval : ℕ → ℚ) (g : Grid) (frames : ℕ) :
    ℕ → SequencerState → ℚ → ℚ → List TriggerEvent →
    SequencerState × List TriggerEvent
  | 0, s, _, _, events => (s, events)
  | fuel + 1, s, remaining, consumed, events =>
    if ¬ 0 < remaining then (s, events)
    else if s.samples_to_next_step ≤ remaining + dblEps then
      let step_advance := max 0 s.samples_to_next_step
      let consumed' := consumed + step_advance
      let remaining' := remaining - step_advance
      let current' := (s.current_step + 1) % kSteps
      let offset := min frames (round consumed').toNat
      let events' := events ++ collectStepEvents g current' offset
      seqLoop interval g frames fuel
        { s with current_step := current', samples_to_next_step := interval current' }
        remaining' consumed' events'
    else
      ({ s with samples_to_next_step := s.samples_to_next_step - remaining }, events)

/-- `Runtime::processSequencer`: when stopped (or given zero frames) only the
timeline counter advances, by exactly `frames`; when running, an armed
`emit_step_on_next_process` first fires the current step at offset 0 and
recomputes the interval, then the step loop runs, and the timeline counter
advances by exactly `frames`. -/
def processSequencer (tempo_bpm swing : ℚ) (sample_rate_hz : ℕ) (g : Grid)
    (transport_running : Bool) (frames : ℕ) (s : SequencerState) :
    SequencerState × List TriggerEvent :=
  if frames = 0 ∨ transport_running = false then
    ({ s with timeline_sample := s.timeline_sample + frames }, [])
  else
    let interval := stepIntervalSamples tempo_bpm swing sample_rate_hz
    let armed :=
      if s.emit_step_on_next_process then
        ({ s with emit_step_on_next_process := false,
                  samples_to_next_step := interval s.current_step },
         collectStepEvents g s.current_step 0)
      else (s, ([] : List TriggerEvent))
    let looped :=
      seqLoop interval g frames (40 * frames + 2) armed.1 (frames : ℚ) 0 armed.2
    ({ looped.1 with timeline_sample := looped.1.timeline_sample + frames },
     looped.2)

/-- `Runtime::CommandType`. -/
inductive CommandType where
  | startTransport
  | stopTransport
  | setTempo
  | setSwing
  | triggerTrack
  | setTrackParameters
  | setTrackSample
  | applyEngineParameter
deriving DecidableEq, Inhabited

/-- `Runtime::Command` (tagged by `type`; unused payload fields keep their
defaults, as in the C++ struct). -/
structure Command where
  type : CommandType := .startTransport
  track_index : ℕ := 0
  value_a : ℚ := 0
  value_b : ℚ := 0
  track_parameters : TrackParameters := {}
  sample_data : List ℚ := []
  parameter_id : ℕ := 0
deriving DecidableEq, Inhabited

/-- The slice of `Runtime` state the command pipeline and sequencer touch:
the engine, the audio-thread-owned `sequencer_`, the mutex-guarded
`pending_commands_` mailbox, the atomic step grid, and the atomics the audio
thread reads (`transport_running_`, `tempo_bpm_`, `swing_`) together with the
configured device sample rate.  (UI-mirror atomics `playhead_step_` /
`timeline_sample_` merely copy sequencer fields and are not duplicated here;
the persistence model and MIDI-learn table are untouched by the embedded
operations.) -/
structure RuntimeState where
  engine : Engine := {}
  seq : SequencerState := {}
  pending_commands : List Command := []
  grid : Grid := emptyGrid
  transport_running : Bool := false
  tempo_bpm : ℚ := 120
  swing : ℚ := 0
  sample_rate_hz : ℕ := 48000
deriving DecidableEq, Inhabited

/-- `Runtime::enqueueCommand`: fails (returning `false`, queue unchanged)
exactly when the mailbox already holds 4096 pending commands. -/
def enqueueCommand (r : RuntimeState) (c : Command) : Bool × RuntimeState :=
  if 4096 ≤ r.pending_commands.length then (false, r)
  else (true, { r with pending_commands := r.pending_commands ++ [c] })

/-- One iteration of the drain loop in `Runtime::applyPendingCommands`:
dispatches a single command to the engine / sequencer state / atomics and
collects any immediate trigger event. -/
def applyCommand (r : RuntimeState) (c : Command) :
    RuntimeState × List TriggerEvent :=
  match c.type with
  | .startTransport =>
      ({ r with
          transport_running := true
          engine := r.engine.startTransport
          seq := { r.seq with
            emit_step_on_next_process := true
            current_step := 0
            samples_to_next_step :=
              stepIntervalSamples r.tempo_bpm r.swing r.sample_rate_hz 0 } }, [])
  | .stopTransport =>
      ({ r with
          transport_running := false
          engine := r.engine.stopTransport
          seq := { r.seq with emit_step_on_next_process := false } }, [])
  | .setTempo =>
      ({ r with
          engine := r.engine.setTempoBpm c.value_a
          seq := { r.seq with
            samples_to_next_step := min r.seq.samples_to_next_step
              (stepIntervalSamples r.tempo_bpm r.swing r.sample_rate_hz
                r.seq.current_step) } }, [])
  | .setSwing =>
      ({ r with
          seq := { r.seq with
            samples_to_next_step := min r.seq.samples_to_next_step
              (stepIntervalSamples r.tempo_bpm r.swing r.sample_rate_hz
                r.seq.current_step) } }, [])
  | .triggerTrack =>
      (r, [{ offset := 0, track_index := c.track_index,
             velocity := clampQ c.value_a 0 1 }])
  | .setTrackParameters =>
      ({ r with engine :=
          (r.engine.setTrackParameters c.track_index c.track_parameters).2 }, [])
  | .setTrackSample =>
      ({ r with engine :=
          (r.engine.setTrackSample c.track_index c.sample_data).2 }, [])
  | .applyEngineParameter =>
      ({ r with engine :=
          (r.engine.applyParameterUpdate c.parameter_id c.value_a).2 }, [])

/-- `Runtime::applyPendingCommands`: the audio thread takes the mailbox lock
with `try_lock`; on failure it returns with everything untouched, otherwise
it swaps the whole pending vector out and applies each command in order.
`lock_acquired` models the `try_lock` outcome. -/
def applyPendingCommands (r : RuntimeState) (lock_acquired : Bool) :
    RuntimeState × List TriggerEvent :=
  if lock_acquired = false then (r, [])
  else
    let commands := r.pending_commands
    let drained := { r with pending_commands := ([] : List Command) }
    commands.foldl
      (fun acc c =>
        let res := applyCommand acc.1 c
        (res.1, acc.2 ++ res.2))
      (drained, ([] : List TriggerEvent))

/-- One interaction with the command/sequencer pipeline: a control-thread
enqueue, an audio-callback drain (with its `try_lock` outcome), or the
audio-callback sequencer advance over a block of frames
(`Runtime::processSequencer`, whose transport flag is the
`transport_running_` atomic). -/
inductive RuntimeOp where
  | enqueue (c : Command)
  | drain (lock_acquired : Bool)
  | seqProcess (frames : ℕ)

/-- Effect of one `RuntimeOp` on the runtime state. -/
def runOp (r : RuntimeState) : RuntimeOp → RuntimeState
  | .enqueue c => (enqueueCommand r c).2
  | .drain lock_acquired => (applyPendingCommands r lock_acquired).1
  | .seqProcess frames =>
      { r with seq := (processSequencer r.tempo_bpm r.swing r.sample_rate_hz
          r.grid r.transport_running frames r.seq).1 }

/-- A whole trace of control-thread and audio-thread interactions. -/
def runOps (r : RuntimeState) (ops : List RuntimeOp) : RuntimeState :=
  ops.foldl runOp r

/-- `n` successive calls to `Runtime::enqueueCommand` with the same command:
the list of returned booleans in order, and the final state. -/
def enqueueRepeat (r : RuntimeState) (c : Command) : ℕ → List Bool × RuntimeState
  | 0 => ([], r)
  | n + 1 =>
    let first := enqueueCommand r c
    let rest := enqueueRepeat first.2 c n
    (first.1 :: rest.1, rest.2)

end Runtime

/-- A concrete transcendental bundle used to instantiate witnesses (the
theorems hold for every bundle). -/
def trivialTranscendental : Transcendental :=
  { pow2 := fun _ => 1, expQ := fun _ => 1 }

/-- A freshly constructed engine after `setTrackSample(0, {1.0})`: track 0 has
a one-sample buffer loaded and an idle (inactive, envelope 0) voice. -/
def sampleLoadedEngine : Engine := (Engine.setTrackSample {} 0 [1]).2

/-- A freshly constructed engine where tracks 0 and 1 both have a one-sample
buffer, share choke group 2, and track 0 has been triggered at full velocity
(so its voice is active). -/
def chokePairEngine : Engine :=
  let e1 := (Engine.setTrackSample {} 0 [1]).2
  let e2 := (Engine.setTrackSample e1 1 [1]).2
  let e3 := (Engine.setTrackParameters e2 0 { choke_group := 2 }).2
  let e4 := (Engine.setTrackParameters e3 1 { choke_group := 2 }).2
  (Engine.triggerTrack e4 0 1).2

/-- The choke-group mapping in the words of the spec (`round(normalized*16)-1`
clamped to `[-1,15]`), kept separate from the source-derived
`normalizedToChokeGroup` so the two can be compared. -/
def chokeGroupSpec (normalized : ℚ) : ℤ :=
  min (max (round (clampNormalized normalized * 16) - 1) (-1)) 15

/-! ## Helper lemmas -/

lemma enqueueRepeat_spec (c : Runtime.Command) :
    ∀ (n : ℕ) (r : Runtime.RuntimeState),
      r.pending_commands.length + n ≤ 4096 →
      (Runtime.enqueueRepeat r c n).1 = List.replicate n true ∧
      (Runtime.enqueueRepeat r c n).2.pending_commands.length =
        r.pending_commands.length + n := by
  intro n
  induction n with
  | zero => intro r _; simp [Runtime.enqueueRepeat]
  | succ k ih =>
    intro r hlen
    have hlt : ¬ 4096 ≤ r.pending_commands.length := by omega
    have hstep : Runtime.enqueueCommand r c =
        (true, { r with pending_commands := r.pending_commands ++ [c] }) := by
      simp [Runtime.enqueueCommand, hlt]
    have hnext :
        ({ r with pending_commands := r.pending_commands ++ [c] } :
          Runtime.RuntimeState).pending_commands.length + k ≤ 4096 := by
      simp; omega
    have := ih { r with pending_commands := r.pending_commands ++ [c] } hnext
    refine ⟨?_, ?_⟩
    · simp [Runtime.enqueueRepeat, hstep, this.1, List.replicate_succ]
    · simp only [Runtime.enqueueRepeat, hstep]
      simp at this
      omega

lemma triggerTrack_fst_false_of_clamp_zero (e : Engine) (track_index : ℕ)
    (v : ℚ) (hv : Engine.clampVelocity v = 0) :
    (Engine.triggerTrack e track_index v).1 = false := by
  by_cases hlt : kTrackCount ≤ track_index
  · simp [Engine.triggerTrack, hlt]
  · by_cases hsample :
      (e.tracks ⟨track_index, by simp [kTrackCount] at hlt; omega⟩).sample = []
    · simp [Engine.triggerTrack, hlt, hsample]
    · simp [Engine.triggerTrack, hlt, hsample, hv]

lemma clampNormalized_idem (v : ℚ) :
    clampNormalized (clampNormalized v) = clampNormalized v := by
  unfold clampNormalized clampQ
  have h0 : (0 : ℚ) ≤ min (max v 0) 1 := le_min (le_max_right v 0) zero_le_one
  rw [max_eq_left h0, min_eq_left (min_le_right (max v 0) 1)]

lemma clampChokeGroup_normalizedToChokeGroup (x : ℚ) :
    Engine.clampChokeGroup (normalizedToChokeGroup x) = normalizedToChokeGroup x := by
  simp only [normalizedToChokeGroup]
  by_cases h : clampNormalized x ≤ 1/10000
  · rw [if_pos h, Engine.clampChokeGroup, if_pos (by norm_num)]
  · rw [if_neg h]
    have h0 : (0:ℤ) ≤ min (max (round (clampNormalized x * 16) - 1) 0) 15 :=
      le_min (le_max_right _ _) (by norm_num)
    rw [Engine.clampChokeGroup, if_neg (by omega),
      min_eq_left (min_le_right _ _)]

lemma applyCommand_pending (r : Runtime.RuntimeState) (c : Runtime.Command) :
    (Runtime.applyCommand r c).1.pending_commands = r.pending_commands := by
  cases h : c.type <;> simp [Runtime.applyCommand, h]

lemma applyCommand_timeline (r : Runtime.RuntimeState) (c : Runtime.Command) :
    (Runtime.applyCommand r c).1.seq.timeline_sample = r.seq.timeline_sample := by
  cases h : c.type <;> simp [Runtime.applyCommand, h]

lemma drainFold_pending (cmds : List Runtime.Command)
    (acc : Runtime.RuntimeState × List Runtime.TriggerEvent) :
    (cmds.foldl
      (fun acc c =>
        let res := Runtime.applyCommand acc.1 c
        (res.1, acc.2 ++ res.2)) acc).1.pending_commands =
      acc.1.pending_commands := by
  induction cmds generalizing acc with
  | nil => rfl
  | cons head tail ih =>
    simpa [List.foldl, applyCommand_pending] using
      (ih (let res := Runtime.applyCommand acc.1 head; (res.1, acc.2 ++ res.2)))

lemma drainFold_timeline (cmds : List Runtime.Command)
    (acc : Runtime.RuntimeState × List Runtime.TriggerEvent) :
    (cmds.foldl
      (fun acc c =>
        let res := Runtime.applyCommand acc.1 c
        (res.1, acc.2 ++ res.2)) acc).1.seq.timeline_sample =
      acc.1.seq.timeline_sample := by
  induction cmds generalizing acc with
  | nil => rfl
  | cons head tail ih =>
    simpa [List.foldl, applyCommand_timeline] using
      (ih (let res := Runtime.applyCommand acc.1 head; (res.1, acc.2 ++ res.2)))

lemma applyPendingCommands_empties (r : Runtime.RuntimeState) :
    (Runtime.applyPendingCommands r true).1.pending_commands = [] := by
  simpa [Runtime.applyPendingCommands] using
    drainFold_pending r.pending_commands
      ({ r with pending_commands := ([] : List Runtime.Command) }, [])

lemma applyPendingCommands_timeline (r : Runtime.RuntimeState)
    (lock_acquired : Bool) :
    (Runtime.applyPendingCommands r lock_acquired).1.seq.timeline_sample =
      r.seq.timeline_sample := by
  cases lock_acquired with
  | false => simp [Runtime.applyPendingCommands]
  | true =>
    simpa [Runtime.applyPendingCommands] using
      drainFold_timeline r.pending_commands
        ({ r with pending_commands := ([] : List Runtime.Command) }, [])

lemma seqLoop_timeline (interval : ℕ → ℚ) (g : Runtime.Grid) (frames : ℕ) :
    ∀ (fuel : ℕ) (s : Runtime.SequencerState) (remaining consumed : ℚ)
      (events : List Runtime.TriggerEvent),
      (Runtime.seqLoop interval g frames fuel s remaining consumed events).1.timeline_sample =
        s.timeline_sample := by
  intro fuel
  induction fuel with
  | zero => intro s remaining consumed events; rfl
  | succ k ih =>
    intro s remaining consumed events
    by_cases hrem : ¬ 0 < remaining
    · simp [Runtime.seqLoop, hrem]
    · by_cases hstep : s.samples_to_next_step ≤ remaining + Runtime.dblEps
      · simpa [Runtime.seqLoop, hrem, hstep] using
          (ih _ _ _ _)
      · simp [Runtime.seqLoop, hrem, hstep]

lemma processSequencer_timeline (tempo_bpm swing : ℚ) (sample_rate_hz : ℕ)
    (g : Runtime.Grid) (transport_running : Bool) (frames : ℕ)
    (s : Runtime.SequencerState) :
    (Runtime.processSequencer tempo_bpm swing sample_rate_hz g transport_running
        frames s).1.timeline_sample = s.timeline_sample + frames := by
  by_cases h : frames = 0 ∨ transport_running = false
  · simp [Runtime.processSequencer, h]
  · by_cases harm : s.emit_step_on_next_process <;>
      simp [Runtime.processSequencer, h, harm, seqLoop_timeline]

lemma runOp_timeline_le (r : Runtime.RuntimeState) (op : Runtime.RuntimeOp) :
    r.seq.timeline_sample ≤ (Runtime.runOp r op).seq.timeline_sample := by
  cases op with
  | enqueue c =>
    have : (Runtime.enqueueCommand r c).2.seq = r.seq := by
      by_cases h : 4096 ≤ r.pending_commands.length <;>
        simp [Runtime.enqueueCommand, h]
    simp [Runtime.runOp, this]
  | drain lock_acquired =>
    simp [Runtime.runOp, applyPendingCommands_timeline]
  | seqProcess frames =>
    simp [Runtime.runOp, processSequencer_timeline]

/-! ## Claim theorems -/

/-- C5: `Runtime::enqueueCommand` succeeds exactly while fewer than 4096
commands are pending; from an empty queue, 4096 consecutive enqueues all
succeed, the 4097th fails, a full queue rejects (unchanged) every further
enqueue until a drain empties it, and after the drain enqueuing succeeds
again. -/
theorem spec_c5_command_queue_capacity :
    (∀ (r : Runtime.RuntimeState) (c : Runtime.Command),
        (Runtime.enqueueCommand r c).1 = true ↔ r.pending_commands.length < 4096) ∧
    (∀ (r : Runtime.RuntimeState) (c : Runtime.Command),
        4096 ≤ r.pending_commands.length → Runtime.enqueueCommand r c = (false, r)) ∧
    (∀ (r : Runtime.RuntimeState) (c : Runtime.Command),
        r.pending_commands = [] →
        (Runtime.enqueueRepeat r c 4096).1 = List.replicate 4096 true ∧
        (Runtime.enqueueCommand (Runtime.enqueueRepeat r c 4096).2 c).1 = false ∧
        (Runtime.applyPendingCommands (Runtime.enqueueRepeat r c 4096).2
            true).1.pending_commands = [] ∧
        (Runtime.enqueueCommand
            (Runtime.applyPendingCommands (Runtime.enqueueRepeat r c 4096).2
              true).1 c).1 = true) := by
  refine ⟨?_, ?_, ?_⟩
  · intro r c
    by_cases h : 4096 ≤ r.pending_commands.length <;>
      simp [Runtime.enqueueCommand, h] <;> omega
  · intro r c h
    simp [Runtime.enqueueCommand, h]
  · intro r c hempty
    have hrun := enqueueRepeat_spec c 4096 r (by simp [hempty])
    have hfull : (Runtime.enqueueRepeat r c 4096).2.pending_commands.length = 4096 := by
      simpa [hempty] using hrun.2
    refine ⟨hrun.1, ?_, applyPendingCommands_empties _, ?_⟩
    · simp [Runtime.enqueueCommand, hfull]
    · simp [Runtime.enqueueCommand, applyPendingCommands_empties]

/-- Witness for C5 at concrete inputs: a queue already holding 4096 default
commands rejects an enqueue unchanged, and the empty-queue fill/overflow/drain
scenario instantiated at the default runtime state. -/
theorem spec_c5_command_queue_capacity_witness :
    (Runtime.enqueueCommand
        { pending_commands := List.replicate 4096 {} } {} =
      (false, { pending_commands := List.replicate 4096 {} })) ∧
    ((Runtime.enqueueRepeat ({} : Runtime.RuntimeState) {} 4096).1 =
        List.replicate 4096 true ∧
      (Runtime.enqueueCommand
          (Runtime.enqueueRepeat ({} : Runtime.RuntimeState) {} 4096).2 {}).1 = false ∧
      (Runtime.applyPendingCommands
          (Runtime.enqueueRepeat ({} : Runtime.RuntimeState) {} 4096).2
          true).1.pending_commands = [] ∧
      (Runtime.enqueueCommand
          (Runtime.applyPendingCommands
            (Runtime.enqueueRepeat ({} : Runtime.RuntimeState) {} 4096).2
            true).1 {}).1 = true) :=
  ⟨spec_c5_command_queue_capacity.2.1 { pending_commands := List.replicate 4096 {} }
      {} (by simp only [List.length_replicate]; exact le_refl _),
   spec_c5_command_queue_capacity.2.2 {} {} rfl⟩

/-- C8: the sequencer's timeline counter advances by exactly `frames` on
every `processSequencer` call whether the transport runs or not; no command
ever touches it; and along any interleaving of enqueues, drains and sequencer
advances it is monotonically non-decreasing (never reset). -/
theorem spec_c8_timeline_monotone :
    (∀ (tempo_bpm swing : ℚ) (sample_rate_hz : ℕ) (g : Runtime.Grid)
        (transport_running : Bool) (frames : ℕ) (s : Runtime.SequencerState),
        (Runtime.processSequencer tempo_bpm swing sample_rate_hz g
            transport_running frames s).1.timeline_sample =
          s.timeline_sample + frames) ∧
    (∀ (r : Runtime.RuntimeState) (c : Runtime.Command),
        (Runtime.applyCommand r c).1.seq.timeline_sample =
          r.seq.timeline_sample) ∧
    (∀ (r : Runtime.RuntimeState) (ops : List Runtime.RuntimeOp),
        r.seq.timeline_sample ≤ (Runtime.runOps r ops).seq.timeline_sample) := by
  refine ⟨processSequencer_timeline, applyCommand_timeline, ?_⟩
  intro r ops
  induction ops generalizing r with
  | nil => exact le_refl _
  | cons op rest ih =>
    exact le_trans (runOp_timeline_le r op) (ih (Runtime.runOp r op))

/-- C10: for in-range indices, `Runtime::setStep` stores the velocity clamped
to `[1,127]` for an active cell (read back by `Runtime::step` as active with
that velocity) and `0` for an inactive one (read back as inactive with the
default velocity 100); out-of-range indices make `setStep` fail with the grid
unchanged and `step` return the default inactive cell. -/
theorem spec_c10_set_step_and_read_back :
    (∀ (g : Runtime.Grid) (track_index step_index velocity : ℕ)
        (ht : track_index < 8) (hs : step_index < 16),
        (Runtime.setStep g track_index step_index true velocity).1 = true ∧
        (Runtime.setStep g track_index step_index true velocity).2
            ⟨track_index, ht⟩ ⟨step_index, hs⟩ = min (max velocity 1) 127 ∧
        Runtime.stepCell (Runtime.setStep g track_index step_index true velocity).2
            track_index step_index =
          { active := true, velocity := min (max velocity 1) 127 }) ∧
    (∀ (g : Runtime.Grid) (track_index step_index velocity : ℕ)
        (ht : track_index < 8) (hs : step_index < 16),
        (Runtime.setStep g track_index step_index false velocity).1 = true ∧
        (Runtime.setStep g track_index step_index false velocity).2
            ⟨track_index, ht⟩ ⟨step_index, hs⟩ = 0 ∧
        Runtime.stepCell (Runtime.setStep g track_index step_index false velocity).2
            track_index step_index = { active := false, velocity := 100 }) ∧
    (∀ (g : Runtime.Grid) (track_index step_index velocity : ℕ) (active : Bool),
        8 ≤ track_index ∨ 16 ≤ step_index →
        Runtime.setStep g track_index step_index active velocity = (false, g) ∧
        Runtime.stepCell g track_index step_index = ({} : Runtime.ProjectStep)) := by
  have hguard : ∀ (track_index step_index : ℕ), track_index < 8 → step_index < 16 →
      ¬ (kTrackCount ≤ track_index ∨ Runtime.kSteps ≤ step_index) := by
    intro t s ht hs
    simp [kTrackCount, Runtime.kSteps]
    omega
  refine ⟨?_, ?_, ?_⟩
  · intro g t s v ht hs
    have hg := hguard t s ht hs
    have hpos : 0 < min (max v 1) 127 := by omega
    refine ⟨by simp [Runtime.setStep, hg], ?_, ?_⟩
    · simp [Runtime.setStep, hg]
    · simp [Runtime.stepCell, Runtime.setStep, hg, hpos, Nat.pos_iff_ne_zero]
  · intro g t s v ht hs
    have hg := hguard t s ht hs
    refine ⟨by simp [Runtime.setStep, hg], ?_, ?_⟩
    · simp [Runtime.setStep, hg]
    · simp [Runtime.stepCell, Runtime.setStep, hg]
  · intro g t s v active h
    have hg : kTrackCount ≤ t ∨ Runtime.kSteps ≤ s := by
      simpa [kTrackCount, Runtime.kSteps] using h
    exact ⟨by simp [Runtime.setStep, hg], by simp [Runtime.stepCell, hg]⟩

/-- Witness for C10 at concrete inputs: setting cell (2,3) active with
velocity 200 stores 127 and reads back active/127; clearing it stores 0 and
reads back inactive/100; indices (8,0) are rejected with the grid unchanged. -/
theorem spec_c10_set_step_and_read_back_witness :
    ((Runtime.setStep Runtime.emptyGrid 2 3 true 200).1 = true ∧
      (Runtime.setStep Runtime.emptyGrid 2 3 true 200).2 ⟨2, by decide⟩
        ⟨3, by decide⟩ = min (max 200 1) 127 ∧
      Runtime.stepCell (Runtime.setStep Runtime.emptyGrid 2 3 true 200).2 2 3 =
        { active := true, velocity := min (max 200 1) 127 }) ∧
    ((Runtime.setStep Runtime.emptyGrid 2 3 false 200).2 ⟨2, by decide⟩
        ⟨3, by decide⟩ = 0) ∧
    Runtime.setStep Runtime.emptyGrid 8 0 true 5 = (false, Runtime.emptyGrid) :=
  ⟨spec_c10_set_step_and_read_back.1 Runtime.emptyGrid 2 3 200 (by decide) (by decide),
   (spec_c10_set_step_and_read_back.2.1 Runtime.emptyGrid 2 3 200 (by decide)
      (by decide)).2.1,
   (spec_c10_set_step_and_read_back.2.2 Runtime.emptyGrid 8 0 5 true
      (Or.inl (by decide))).1⟩

set_option maxRecDepth 10000 in
/-- C4: at 120 bpm, swing 0 and 48000 Hz the step interval is exactly
`48000*60/120/4 = 6000` samples for every step; applying a `StartTransport`
command resets `current_step` to 0, arms the immediate first-step emission,
and primes a 6000-sample interval, and then processing exactly 6000 frames
advances `current_step` from 0 to 1. -/
theorem spec_c4_step_interval_and_first_advance :
    (∀ step_index : ℕ,
        Runtime.stepIntervalSamples 120 0 48000 step_index = 6000) ∧
    ((Runtime.applyCommand {} { type := .startTransport }).1.seq.current_step = 0 ∧
      (Runtime.applyCommand {}
          { type := .startTransport }).1.seq.emit_step_on_next_process = true ∧
      (Runtime.applyCommand {}
          { type := .startTransport }).1.seq.samples_to_next_step = 6000 ∧
      (Runtime.processSequencer 120 0 48000 Runtime.emptyGrid true 6000
          (Runtime.applyCommand {}
            { type := .startTransport }).1.seq).1.current_step = 1) := by
  constructor
  · intro step_index
    with_unfolding_all rfl
  · refine ⟨rfl, rfl, by with_unfolding_all rfl, by with_unfolding_all rfl⟩

/-- C1 (amended): for every `track_index < 8`, `Engine::triggerTrack` returns
`false` when the track has no sample loaded — leaving the whole engine
unchanged — and also returns `false` when the velocity clamps to 0; but in
the latter case, when a sample is loaded, the engine is *not* left unchanged:
the triggered voice is reset to an inactive state (playhead 0, velocity 0,
envelope 1, filter 0, active false). -/
theorem spec_c1_trigger_reject_paths :
    (∀ (e : Engine) (track_index : ℕ) (v : ℚ) (h : track_index < 8),
        (e.tracks ⟨track_index, h⟩).sample = [] →
        Engine.triggerTrack e track_index v = (false, e)) ∧
    (∀ (e : Engine) (track_index : ℕ) (v : ℚ),
        Engine.clampVelocity v = 0 →
        (Engine.triggerTrack e track_index v).1 = false) ∧
    (∀ (e : Engine) (track_index : ℕ) (v : ℚ) (h : track_index < 8),
        (e.tracks ⟨track_index, h⟩).sample ≠ [] →
        Engine.clampVelocity v = 0 →
        (Engine.triggerTrack e track_index v).2.tracks ⟨track_index, h⟩ =
          { e.tracks ⟨track_index, h⟩ with
              playhead := 0, trigger_velocity := 0, envelope_value := 1,
              filter_state := 0, active := false }) := by
  refine ⟨?_, ?_, ?_⟩
  · intro e track_index v h hsample
    have hlt : ¬ kTrackCount ≤ track_index := by simp [kTrackCount]; omega
    simp [Engine.triggerTrack, hlt, hsample]
  · exact triggerTrack_fst_false_of_clamp_zero
  · intro e track_index v h hsample hv
    have hlt : ¬ kTrackCount ≤ track_index := by simp [kTrackCount]; omega
    simp [Engine.triggerTrack, hlt, hsample, hv]

/-- C1 counterexample to the claim as stated: on a fresh engine whose track 0
has the sample `{1.0}` loaded (and an idle voice with envelope 0),
`triggerTrack(0, 0)` does return `false`, but it does not leave the engine
state unchanged — the voice is reset (its envelope becomes 1). -/
theorem spec_c1_counterexample :
    (Engine.triggerTrack sampleLoadedEngine 0 0).1 = false ∧
    (Engine.triggerTrack sampleLoadedEngine 0 0).2 ≠ sampleLoadedEngine := by
  constructor
  · with_unfolding_all rfl
  · intro hcontra
    have := congrArg (fun e : Engine => (e.tracks ⟨0, by omega⟩).envelope_value)
      hcontra
    revert this
    with_unfolding_all decide

/-- Witness for C1 (amended) at concrete inputs: a sample-free default engine
rejects unchanged; the sample-loaded engine rejects zero velocity with its
voice reset to the inactive state. -/
theorem spec_c1_trigger_reject_paths_witness :
    Engine.triggerTrack {} 0 (1/2) = (false, {}) ∧
    (Engine.triggerTrack sampleLoadedEngine 0 0).1 = false ∧
    (Engine.triggerTrack sampleLoadedEngine 0 0).2.tracks ⟨0, by omega⟩ =
      { sampleLoadedEngine.tracks ⟨0, by omega⟩ with
          playhead := 0, trigger_velocity := 0, envelope_value := 1,
          filter_state := 0, active := false } :=
  ⟨spec_c1_trigger_reject_paths.1 {} 0 (1/2) (by omega) rfl,
   spec_c1_trigger_reject_paths.2.1 sampleLoadedEngine 0 0
     (by with_unfolding_all rfl),
   spec_c1_trigger_reject_paths.2.2 sampleLoadedEngine 0 0 (by omega)
     (by with_unfolding_all decide) (by with_unfolding_all rfl)⟩

/-- C2: a successful `triggerTrack` on track `b` with a non-negative choke
group deactivates every other active voice sharing that group — such a voice
is inactive afterwards and contributes nothing (and is untouched) in the next
`process` frame — while a trigger never deactivates another voice whose choke
group is negative or different from `b`'s. -/
theorem spec_c2_choke_group_semantics :
    (∀ (e : Engine) (b : Fin 8) (v : ℚ),
        0 ≤ (e.tracks b).parameters.choke_group →
        (Engine.triggerTrack e b.val v).1 = true →
        ∀ c : Fin 8, c ≠ b →
          (e.tracks c).parameters.choke_group =
            (e.tracks b).parameters.choke_group →
          (e.tracks c).active = true →
          ((Engine.triggerTrack e b.val v).2.tracks c).active = false ∧
          ∀ (F : Transcendental) (sample_rate_hz : ℕ),
            Engine.stepVoice F sample_rate_hz
                ((Engine.triggerTrack e b.val v).2.tracks c) =
              ((Engine.triggerTrack e b.val v).2.tracks c, 0)) ∧
    (∀ (e : Engine) (b : Fin 8) (v : ℚ) (c : Fin 8), c ≠ b →
        ((e.tracks c).parameters.choke_group < 0 ∨
          (e.tracks c).parameters.choke_group ≠
            (e.tracks b).parameters.choke_group) →
        ((Engine.triggerTrack e b.val v).2.tracks c).active =
          (e.tracks c).active) := by
  have hlt : ∀ b : Fin 8, ¬ kTrackCount ≤ b.val := by
    intro b; simp [kTrackCount]
  constructor
  · intro e b v hg hsucc c hne hgeq hact
    by_cases hsample : (e.tracks b).sample = []
    · rw [Engine.triggerTrack] at hsucc
      simp [hlt b, Fin.eta, hsample] at hsucc
    · have hchoked :
          ((Engine.triggerTrack e b.val v).2.tracks c).active = false := by
        rw [Engine.triggerTrack]
        simp only [hlt b, dite_false, dif_neg]
        simp [Fin.eta, hsample, Function.update_noteq hne, hg, hne, hgeq, hact]
      refine ⟨hchoked, ?_⟩
      intro F sample_rate_hz
      simp [Engine.stepVoice, hchoked]
  · intro e b v c hne hcond
    by_cases hsample : (e.tracks b).sample = []
    · rw [Engine.triggerTrack]
      simp [hlt b, Fin.eta, hsample]
    · rw [Engine.triggerTrack]
      simp only [hlt b, dite_false, dif_neg]
      by_cases hg : 0 ≤ (e.tracks b).parameters.choke_group
      · rcases hcond with hneg | hdiff
        · have hdiff : (e.tracks c).parameters.choke_group ≠
              (e.tracks b).parameters.choke_group := by
            intro habs; rw [habs] at hneg; omega
          simp [Fin.eta, hsample, Function.update_noteq hne, hg, hdiff]
        · simp [Fin.eta, hsample, Function.update_noteq hne, hg, hdiff]
      · simp [Fin.eta, hsample, Function.update_noteq hne, hg]

/-- Witness for C2 at concrete inputs: tracks 0 and 1 share choke group 2,
track 0's voice is active, and triggering track 1 at velocity 1 succeeds —
afterwards track 0 is inactive and contributes zero to the next frame; a
default engine never flips another (choke-group `-1`) track's flag. -/
theorem spec_c2_choke_group_semantics_witness :
    (((Engine.triggerTrack chokePairEngine 1 1).2.tracks 0).active = false ∧
      Engine.stepVoice trivialTranscendental 48000
          ((Engine.triggerTrack chokePairEngine 1 1).2.tracks 0) =
        ((Engine.triggerTrack chokePairEngine 1 1).2.tracks 0, 0)) ∧
    ((Engine.triggerTrack sampleLoadedEngine 0 1).2.tracks 3).active =
      (sampleLoadedEngine.tracks 3).active :=
  ⟨by
    have h := spec_c2_choke_group_semantics.1 chokePairEngine 1 1
      (by with_unfolding_all decide) (by with_unfolding_all rfl) 0
      (by decide) (by with_unfolding_all decide) (by with_unfolding_all rfl)
    exact ⟨h.1, h.2 trivialTranscendental 48000⟩,
   spec_c2_choke_group_semantics.2 sampleLoadedEngine 0 1 3 (by decide)
     (Or.inl (by with_unfolding_all decide))⟩

/-- C3 (amended): for the choke-group slot of a valid track,
`applyParameterUpdate` succeeds and stores `-1` when the clamped normalized
value is at most `0.0001`, and otherwise `round(clamped*16)-1` clamped to
`[0,15]` (not `[-1,15]`); ids below the track base, ids decoding to a track
index of 8 or more, and ids decoding to an unknown slot all fail with the
engine unchanged. -/
theorem spec_c3_choke_parameter_update :
    (∀ (e : Engine) (track_index : ℕ) (n : ℚ) (h : track_index < 8),
        (Engine.applyParameterUpdate e
            (FF_PARAM_TRACK_BASE + track_index * FF_PARAM_TRACK_STRIDE +
              FF_PARAM_SLOT_CHOKE_GROUP) n).1 = true ∧
        ((Engine.applyParameterUpdate e
            (FF_PARAM_TRACK_BASE + track_index * FF_PARAM_TRACK_STRIDE +
              FF_PARAM_SLOT_CHOKE_GROUP) n).2.tracks
              ⟨track_index, h⟩).parameters.choke_group =
          (if clampNormalized n ≤ 1/10000 then -1
           else min (max (round (clampNormalized n * 16) - 1) 0) 15)) ∧
    (∀ (e : Engine) (parameter_id : ℕ) (n : ℚ),
        parameter_id < FF_PARAM_TRACK_BASE →
        Engine.applyParameterUpdate e parameter_id n = (false, e)) ∧
    (∀ (e : Engine) (parameter_id : ℕ) (n : ℚ),
        FF_PARAM_TRACK_BASE ≤ parameter_id →
        8 ≤ (parameter_id - FF_PARAM_TRACK_BASE) / FF_PARAM_TRACK_STRIDE →
        Engine.applyParameterUpdate e parameter_id n = (false, e)) ∧
    (∀ (e : Engine) (parameter_id : ℕ) (n : ℚ),
        FF_PARAM_TRACK_BASE ≤ parameter_id →
        FF_PARAM_SLOT_CHOKE_GROUP <
          (parameter_id - FF_PARAM_TRACK_BASE) % FF_PARAM_TRACK_STRIDE →
        Engine.applyParameterUpdate e parameter_id n = (false, e)) := by
  refine ⟨?_, ?_, ?_, ?_⟩
  · intro e track_index n h
    have htrk : ¬ kTrackCount ≤ track_index := by simp [kTrackCount]; omega
    rw [Engine.applyParameterUpdate]
    simp only [FF_PARAM_TRACK_BASE, FF_PARAM_TRACK_STRIDE, FF_PARAM_SLOT_GAIN,
      FF_PARAM_SLOT_PAN, FF_PARAM_SLOT_FILTER_CUTOFF, FF_PARAM_SLOT_ENVELOPE_DECAY,
      FF_PARAM_SLOT_PITCH, FF_PARAM_SLOT_CHOKE_GROUP]
    have h1 : ¬ (4096 + track_index * 8 + 5 < 4096) := by omega
    have h2 : 4096 + track_index * 8 + 5 - 4096 = track_index * 8 + 5 := by omega
    have h3 : (track_index * 8 + 5) / 8 = track_index := by omega
    have h4 : (track_index * 8 + 5) % 8 = 5 := by omega
    simp only [h1, if_false, ite_false, h2, h3, h4, htrk, dite_false, dif_neg]
    norm_num
    rw [Engine.setTrackParameters]
    simp only [htrk, dite_false, dif_neg]
    refine ⟨trivial, ?_⟩
    simp only [Function.update_same]
    rw [clampChokeGroup_normalizedToChokeGroup]
    simp only [normalizedToChokeGroup]
    rw [clampNormalized_idem]
  · intro e parameter_id n hlt
    rw [Engine.applyParameterUpdate]
    simp [hlt]
  · intro e parameter_id n hge htrk
    rw [Engine.applyParameterUpdate]
    have h1 : ¬ parameter_id < FF_PARAM_TRACK_BASE := by omega
    have h2 : kTrackCount ≤ (parameter_id - FF_PARAM_TRACK_BASE) /
        FF_PARAM_TRACK_STRIDE := by simp [kTrackCount]; omega
    simp [h1, h2]
  · intro e parameter_id n hge hslot
    rw [Engine.applyParameterUpdate]
    have h1 : ¬ parameter_id < FF_PARAM_TRACK_BASE := by omega
    simp only [h1, if_false, ite_false]
    by_cases h2 : kTrackCount ≤ (parameter_id - FF_PARAM_TRACK_BASE) /
        FF_PARAM_TRACK_STRIDE
    · simp [h2]
    · have hmod8 : (parameter_id - FF_PARAM_TRACK_BASE) % FF_PARAM_TRACK_STRIDE < 8 := by
        rw [show FF_PARAM_TRACK_STRIDE = 8 from rfl]
        omega
      have hslot5 : 5 < (parameter_id - FF_PARAM_TRACK_BASE) % FF_PARAM_TRACK_STRIDE := by
        simpa [FF_PARAM_SLOT_CHOKE_GROUP] using hslot
      have hmods : ∀ m : ℕ, 5 < m → m < 8 →
          m ≠ FF_PARAM_SLOT_GAIN ∧ m ≠ FF_PARAM_SLOT_PAN ∧
          m ≠ FF_PARAM_SLOT_FILTER_CUTOFF ∧ m ≠ FF_PARAM_SLOT_ENVELOPE_DECAY ∧
          m ≠ FF_PARAM_SLOT_PITCH ∧ m ≠ FF_PARAM_SLOT_CHOKE_GROUP := by
        intro m hm1 hm2
        refine ⟨?_, ?_, ?_, ?_, ?_, ?_⟩ <;>
          simp [FF_PARAM_SLOT_GAIN, FF_PARAM_SLOT_PAN, FF_PARAM_SLOT_FILTER_CUTOFF,
            FF_PARAM_SLOT_ENVELOPE_DECAY, FF_PARAM_SLOT_PITCH,
            FF_PARAM_SLOT_CHOKE_GROUP] <;> omega
      have hmods' := hmods _ hslot5 hmod8
      simp [h2, hmods'.1, hmods'.2.1, hmods'.2.2.1, hmods'.2.2.2.1,
        hmods'.2.2.2.2.1, hmods'.2.2.2.2.2]

/-- C3 counterexample to the claim as stated: at normalized value `1/64`
(clamped value `1/64 > 0.0001`, `round(1/64*16)-1 = -1`), the engine stores
choke group `0` — the code clamps the non-threshold branch to `[0,15]` —
while the claim's formula `round(n*16)-1` clamped to `[-1,15]` yields `-1`. -/
theorem spec_c3_counterexample :
    ((Engine.applyParameterUpdate {}
        (FF_PARAM_TRACK_BASE + FF_PARAM_SLOT_CHOKE_GROUP)
        (1/64)).2.tracks ⟨0, by omega⟩).parameters.choke_group = 0 ∧
    chokeGroupSpec (1/64) = -1 := by
  constructor
  · with_unfolding_all rfl
  · with_unfolding_all rfl

/-- Witness for C3 (amended) at concrete inputs: normalized 1/4 on track 0's
choke slot stores group 3; id 0 (below the base) fails unchanged; the id of
track 8 fails unchanged; slot 7 of track 0 fails unchanged. -/
theorem spec_c3_choke_parameter_update_witness :
    ((Engine.applyParameterUpdate {}
        (FF_PARAM_TRACK_BASE + 0 * FF_PARAM_TRACK_STRIDE +
          FF_PARAM_SLOT_CHOKE_GROUP) (1/4)).1 = true ∧
      ((Engine.applyParameterUpdate {}
          (FF_PARAM_TRACK_BASE + 0 * FF_PARAM_TRACK_STRIDE +
            FF_PARAM_SLOT_CHOKE_GROUP) (1/4)).2.tracks
            ⟨0, by omega⟩).parameters.choke_group =
        (if clampNormalized (1/4) ≤ 1/10000 then -1
         else min (max (round (clampNormalized (1/4) * 16) - 1) 0) 15)) ∧
    Engine.applyParameterUpdate {} 0 (1/2) = (false, {}) ∧
    Engine.applyParameterUpdate {} (FF_PARAM_TRACK_BASE + 8 * FF_PARAM_TRACK_STRIDE)
      (1/2) = (false, {}) ∧
    Engine.applyParameterUpdate {} (FF_PARAM_TRACK_BASE + 7) (1/2) = (false, {}) :=
  ⟨spec_c3_choke_parameter_update.1 {} 0 (1/4) (by omega),
   spec_c3_choke_parameter_update.2.1 {} 0 (1/2) (by decide),
   spec_c3_choke_parameter_update.2.2.1 {}
     (FF_PARAM_TRACK_BASE + 8 * FF_PARAM_TRACK_STRIDE) (1/2) (by decide)
     (by decide),
   spec_c3_choke_parameter_update.2.2.2 {} (FF_PARAM_TRACK_BASE + 7) (1/2)
     (by decide) (by decide)⟩

/-- C6 (amended): for MIDI velocities 1..127, `handleMidiNoteOn(padBase+k, v)`
is equivalent to `triggerTrack(k, v/127)` — same boolean result and same
engine state, including out-of-range `k` — but for `v == 0` only the boolean
results agree (both `false`): `handleMidiNoteOn` returns with the engine
untouched while `triggerTrack` may reset the voice (see C1). -/
theorem spec_c6_midi_note_on_equivalence :
    (∀ (e : Engine) (k velocity : ℕ), 1 ≤ velocity → velocity ≤ 127 →
        Engine.handleMidiNoteOn e (e.pad_base_note + k) velocity =
          Engine.triggerTrack e k ((velocity : ℚ) / 127)) ∧
    (∀ (e : Engine) (k : ℕ),
        Engine.handleMidiNoteOn e (e.pad_base_note + k) 0 = (false, e) ∧
        (Engine.triggerTrack e k ((0 : ℚ) / 127)).1 = false) := by
  constructor
  · intro e k velocity hv1 hv127
    have hvne : velocity ≠ 0 := by omega
    have hnlt : ¬ e.pad_base_note + k < e.pad_base_note := by omega
    rw [Engine.handleMidiNoteOn]
    simp only [hvne, if_false, hnlt, ite_false, Nat.add_sub_cancel_left]
    by_cases hk : kTrackCount ≤ k
    · rw [Engine.triggerTrack]
      simp [hk]
    · simp [hk]
  · intro e k
    refine ⟨by simp [Engine.handleMidiNoteOn], ?_⟩
    have hv : Engine.clampVelocity ((0 : ℚ) / 127) = 0 := by
      norm_num [Engine.clampVelocity, clampQ]
    exact triggerTrack_fst_false_of_clamp_zero e k ((0 : ℚ) / 127) hv

/-- C6 counterexample to the claim as stated: at `k = 0`, `v = 0`, on the
engine whose track 0 has a sample loaded, `handleMidiNoteOn(padBase, 0)`
returns `(false, unchanged)` while `triggerTrack(0, 0)` returns `false` but
resets the voice, so the resulting engine states differ. -/
theorem spec_c6_counterexample :
    Engine.handleMidiNoteOn sampleLoadedEngine
        (sampleLoadedEngine.pad_base_note + 0) 0 ≠
      Engine.triggerTrack sampleLoadedEngine 0 ((0 : ℚ) / 127) := by
  intro hcontra
  have := congrArg (fun p : Bool × Engine => (p.2.tracks ⟨0, by omega⟩).envelope_value)
    hcontra
  revert this
  with_unfolding_all decide

/-- Witness for C6 (amended) at concrete inputs: full-velocity note-on at the
pad base note equals triggering track 0 at velocity 1 on the sample-loaded
engine. -/
theorem spec_c6_midi_note_on_equivalence_witness :
    Engine.handleMidiNoteOn sampleLoadedEngine
        (sampleLoadedEngine.pad_base_note + 0) 127 =
      Engine.triggerTrack sampleLoadedEngine 0 ((127 : ℚ) / 127) ∧
    Engine.handleMidiNoteOn sampleLoadedEngine
        (sampleLoadedEngine.pad_base_note + 0) 0 = (false, sampleLoadedEngine) :=
  ⟨spec_c6_midi_note_on_equivalence.1 sampleLoadedEngine 0 127 (by omega)
      (by omega),
   (spec_c6_midi_note_on_equivalence.2 sampleLoadedEngine 0).1⟩

/-- C9: `Engine::process` called with a null buffer or with `frames == 0`
returns immediately: nothing is written (`none`), and the engine — voices,
parameters, performance statistics, everything — is returned unchanged. -/
theorem spec_c9_process_null_or_zero_frames_is_noop
    (F : Transcendental) (e : Engine) (buffer_null : Bool) (frames : ℕ)
    (elapsed_us : ℚ) (h : buffer_null = true ∨ frames = 0) :
    Engine.process F e buffer_null frames elapsed_us = (e, none) := by
  simp [Engine.process, h]

/-- Witness for C9 at a concrete input: a default engine, a non-null buffer
and zero frames. -/
theorem spec_c9_process_null_or_zero_frames_is_noop_witness :
    Engine.process trivialTranscendental {} false 0 0 = ({}, none) :=
  spec_c9_process_null_or_zero_frames_is_noop trivialTranscendental {} false 0 0
    (Or.inr rfl)

/-- C7: master gain is applied after mixing: for any engine state, gain `g`
and positive frame count, `setMasterGain(g)` followed by `process` renders
exactly `g` times, sample for sample, what the same state renders with master
gain 1, and the voice states evolve identically. -/
theorem spec_c7_master_gain_linearity
    (F : Transcendental) (e : Engine) (g : ℚ) (frames : ℕ) (elapsed_us : ℚ)
    (h : 0 < frames) :
    (Engine.process F (e.setMasterGain g) false frames elapsed_us).2 =
      Option.map (List.map fun sample => g * sample)
        (Engine.process F (e.setMasterGain 1) false frames elapsed_us).2 ∧
    (Engine.process F (e.setMasterGain g) false frames elapsed_us).1.tracks =
      (Engine.process F (e.setMasterGain 1) false frames elapsed_us).1.tracks := by
  have hf : frames ≠ 0 := Nat.pos_iff_ne_zero.mp h
  constructor
  · simp [Engine.process, Engine.setMasterGain, hf, List.map_map, Function.comp,
      mul_comm]
  · simp [Engine.process, Engine.setMasterGain, hf]

/-- Witness for C7 at a concrete input: default engine, gain 2, one frame. -/
theorem spec_c7_master_gain_linearity_witness :
    (Engine.process trivialTranscendental (Engine.setMasterGain {} 2) false 1 0).2 =
      Option.map (List.map fun sample => (2 : ℚ) * sample)
        (Engine.process trivialTranscendental (Engine.setMasterGain {} 1) false 1 0).2 ∧
    (Engine.process trivialTranscendental (Engine.setMasterGain {} 2) false 1 0).1.tracks =
      (Engine.process trivialTranscendental (Engine.setMasterGain {} 1) false 1 0).1.tracks :=
  spec_c7_master_gain_linearity trivialTranscendental {} 2 1 0 (by decide)

end ForestFloor
